import Mathlib

/-!
Verification of the `fvad` VAD session wrapper (src/src/lib.rs).

The crate is a safe wrapper around an external decision engine (libfvad,
linked through `libfvad_sys`; its implementation is not part of this
repository). The wrapper's own code — the `Mode` and `SampleRate` enums,
the `TryFrom<u16>` whitelist, and the four session operations with their
return-code matches — is embedded directly from the source. The engine's
behaviour behind the FFI calls is modelled from the specification's engine
contract (spec sections 3, 4 and 6), each such definition marked
`Modelled from the spec:`.
-/

/-- Aggressiveness mode of the VAD (src/src/lib.rs, lines 5-11), with the
discriminants 0..3 given in the source. -/
inductive Mode where
  | Quality
  | LowBitrate
  | Aggressive
  | VeryAggressive
deriving DecidableEq

/-- The discriminant of a `Mode`, as computed by `mode as i32` in
`Fvad::set_mode` (src/src/lib.rs, line 67). -/
def Mode.toInt : Mode → Int
  | .Quality => 0
  | .LowBitrate => 1
  | .Aggressive => 2
  | .VeryAggressive => 3

/-- Supported input sample rates (src/src/lib.rs, lines 13-19), with the
discriminants 8000, 16000, 32000, 48000 given in the source. -/
inductive SampleRate where
  | Rate8kHz
  | Rate16kHz
  | Rate32kHz
  | Rate48kHz
deriving DecidableEq

/-- The rate in Hz of a `SampleRate`: its discriminant as an unsigned
integer. -/
def SampleRate.toHz : SampleRate → Nat
  | .Rate8kHz => 8000
  | .Rate16kHz => 16000
  | .Rate32kHz => 32000
  | .Rate48kHz => 48000

/-- The discriminant of a `SampleRate`, as computed by `sample_rate as i32`
in `Fvad::set_sample_rate` (src/src/lib.rs, line 80). -/
def SampleRate.toInt (r : SampleRate) : Int := r.toHz

/-- `impl TryFrom<u16> for SampleRate` (src/src/lib.rs, lines 21-33): the
whitelist conversion from a raw 16-bit rate; `none` models `Err(())`. -/
def SampleRate.tryFrom (n : Nat) : Option SampleRate :=
  if n = 8000 then some .Rate8kHz
  else if n = 16000 then some .Rate16kHz
  else if n = 32000 then some .Rate32kHz
  else if n = 48000 then some .Rate48kHz
  else none

/-- Modelled from the spec: the state of the external decision engine
(libfvad, not part of this repository). Spec section 3: the engine holds
the configured mode and sample rate, and adaptive statistical state
accumulated by prior classifications; the latter is recorded here as the
list of frames classified since the last reset. -/
structure EngineState where
  mode : Int
  rate : Int
  history : List (List Int)
deriving DecidableEq

/-- Modelled from the spec (section 4.1): the default-initialized engine —
mode Quality (ordinal 0), rate 8000 Hz, no adaptive state. -/
def EngineState.init : EngineState := ⟨0, 8000, []⟩

/-- Modelled from the spec (sections 4.1, 6): `ffi::fvad_reset` clears all
adaptive state and restores the default mode and sample rate, keeping the
same engine allocation. -/
def fvad_reset (_st : EngineState) : EngineState := EngineState.init

/-- Modelled from the spec (sections 4.2, 6): `ffi::fvad_set_mode` accepts
exactly the ordinals 0..3, returning code 0 and storing the mode; any
other ordinal yields code -1 and leaves the state unchanged. -/
def fvad_set_mode (st : EngineState) (v : Int) : Int × EngineState :=
  if 0 ≤ v ∧ v ≤ 3 then (0, { st with mode := v }) else (-1, st)

/-- Modelled from the spec (sections 4.2, 6): `ffi::fvad_set_sample_rate`
accepts exactly 8000, 16000, 32000 and 48000, returning code 0 and storing
the rate; any other value yields code -1 and leaves the state unchanged. -/
def fvad_set_sample_rate (st : EngineState) (v : Int) : Int × EngineState :=
  if v = 8000 ∨ v = 16000 ∨ v = 32000 ∨ v = 48000 then (0, { st with rate := v })
  else (-1, st)

/-- The frame lengths valid at a given sample rate: 10, 20 and 30 ms of
audio (spec section 3; doc comment of `is_voice_frame`, src/src/lib.rs
lines 93-95). Exact for the four supported rates. -/
def validLengths (rate : Int) : List Int := [rate / 100, rate / 50, 3 * rate / 100]

/-- Modelled from the spec: the binary decision of the engine's statistical
model, which is explicitly out of scope of this repository (spec sections
1, 6). The spec constrains it only through section 8: a fresh or freshly
reset engine classifies an all-zero frame as non-voice. This model reports
voice exactly when some sample of the frame is nonzero. -/
def engineDecide (_st : EngineState) (frame : List Int) : Bool :=
  frame.any (fun s => s != 0)

/-- Modelled from the spec (sections 4.3, 6): `ffi::fvad_process` yields
code -1 without touching the state when the frame length is not 10, 20 or
30 ms of audio at the configured rate; otherwise it records the frame in
the adaptive state and returns the binary decision as code 0 or 1. -/
def fvad_process (st : EngineState) (frame : List Int) : Int × EngineState :=
  if (frame.length : Int) ∈ validLengths st.rate then
    ((if engineDecide st frame then 1 else 0),
      { st with history := st.history ++ [frame] })
  else (-1, st)

/-- The distinct panic messages of the wrapper (src/src/lib.rs, lines 70,
71, 83-87, 106), each carrying the integer it formats. -/
inductive PanicMsg where
  | setModeRejected (v : Int)
  | setModeUnexpected (n : Int)
  | setRateRejected (v : Int)
  | setRateUnexpected (n : Int)
  | processUnexpected (n : Int)
deriving DecidableEq

/-- Outcome of a wrapper call that may panic: a Rust panic unwinds and
yields no value, so it is a distinct, value-free constructor. -/
inductive PanicOr (α : Type) where
  | panicked : PanicMsg → PanicOr α
  | ok : α → PanicOr α
deriving DecidableEq

/-- The session type (`pub struct Fvad`, src/src/lib.rs lines 35-37): sole
owner of one raw engine handle. `fvad` is the pointer value; `engine` is
the engine state behind the pointer, inlined so the model is first-order. -/
structure Fvad where
  fvad : Nat
  engine : EngineState
deriving DecidableEq

/-- Modelled from the spec (section 4.1): `ffi::fvad_new` returns null
(`none`) exactly on resource exhaustion, and otherwise a fresh
default-initialized engine at some pointer `p`. -/
def fvad_new (allocOk : Bool) (p : Nat) : Option (Nat × EngineState) :=
  if allocOk then some (p, EngineState.init) else none

/-- `Fvad::new` (src/src/lib.rs, lines 45-51): the match on
`fvad.is_null()` maps a null pointer to `None` and wraps any other handle
via `From`. `raw` is the value returned by `ffi::fvad_new()`. -/
def Fvad.new (raw : Option (Nat × EngineState)) : Option Fvad :=
  match raw with
  | some pst => some ⟨pst.1, pst.2⟩
  | none => none

/-- `Fvad::reset` (src/src/lib.rs, lines 55-57): delegates to
`ffi::fvad_reset` on the owned handle; the handle itself is untouched. -/
def Fvad.reset (s : Fvad) : Fvad := ⟨s.fvad, fvad_reset s.engine⟩

/-- The return-code match of `Fvad::set_mode` (src/src/lib.rs, lines
68-72): 0 yields `self`, -1 panics with the rejection message, any other
code panics with the unexpected-code message. -/
def setModeOutcome (v code : Int) (s : Fvad) : PanicOr Fvad :=
  if code = 0 then .ok s
  else if code = -1 then .panicked (.setModeRejected v)
  else .panicked (.setModeUnexpected code)

/-- `Fvad::set_mode` (src/src/lib.rs, lines 66-73). -/
def Fvad.set_mode (s : Fvad) (mode : Mode) : PanicOr Fvad :=
  let v := mode.toInt
  let r := fvad_set_mode s.engine v
  setModeOutcome v r.1 ⟨s.fvad, r.2⟩

/-- The return-code match of `Fvad::set_sample_rate` (src/src/lib.rs,
lines 81-88). -/
def setRateOutcome (v code : Int) (s : Fvad) : PanicOr Fvad :=
  if code = 0 then .ok s
  else if code = -1 then .panicked (.setRateRejected v)
  else .panicked (.setRateUnexpected code)

/-- `Fvad::set_sample_rate` (src/src/lib.rs, lines 79-89). -/
def Fvad.set_sample_rate (s : Fvad) (sample_rate : SampleRate) : PanicOr Fvad :=
  let v := sample_rate.toInt
  let r := fvad_set_sample_rate s.engine v
  setRateOutcome v r.1 ⟨s.fvad, r.2⟩

/-- The return-code match of `Fvad::is_voice_frame` (src/src/lib.rs, lines
102-107): -1 maps to `none` (invalid frame length), 0 to `some false`, 1
to `some true`, any other code panics. -/
def processOutcome (code : Int) : PanicOr (Option Bool) :=
  if code = -1 then .ok none
  else if code = 0 then .ok (some false)
  else if code = 1 then .ok (some true)
  else .panicked (.processUnexpected code)

/-- `Fvad::is_voice_frame` (src/src/lib.rs, lines 101-108); the session in
the result is the receiver after the engine call (`&mut self`). -/
def Fvad.is_voice_frame (s : Fvad) (frame : List Int) :
    PanicOr (Option Bool × Fvad) :=
  let r := fvad_process s.engine frame
  match processOutcome r.1 with
  | .ok d => .ok (d, ⟨s.fvad, r.2⟩)
  | .panicked m => .panicked m

/-- Classifying a frame and then a second one, as a caller sequences the
two calls on the same session (panics propagate). -/
def Fvad.classifyTwice (s : Fvad) (f g : List Int) :
    PanicOr (Option Bool × Fvad) :=
  match s.is_voice_frame f with
  | .ok r => r.2.is_voice_frame g
  | .panicked m => .panicked m

/-- Configuration from a raw 16-bit rate, as a caller of the crate composes
it: the `TryFrom` whitelist followed by `set_sample_rate` on success;
`Except.error ()` is the `Err(())` report (the spec's `InvalidSampleRate`). -/
def setSampleRateRaw (s : Fvad) (n : Nat) : Except Unit (PanicOr Fvad) :=
  match SampleRate.tryFrom n with
  | some r => .ok (s.set_sample_rate r)
  | none => .error ()

/-! ## Helper lemmas -/

/-- `set_mode` always succeeds: every `Mode` ordinal is within the engine's
whitelist, so the engine returns 0 and the mode is stored. -/
theorem set_mode_eq (s : Fvad) (m : Mode) :
    s.set_mode m = .ok ⟨s.fvad, { s.engine with mode := m.toInt }⟩ := by
  cases m <;>
    simp [Fvad.set_mode, fvad_set_mode, Mode.toInt, setModeOutcome]

/-- `set_sample_rate` always succeeds: every `SampleRate` value is within
the engine's whitelist, so the engine returns 0 and the rate is stored. -/
theorem set_sample_rate_eq (s : Fvad) (r : SampleRate) :
    s.set_sample_rate r = .ok ⟨s.fvad, { s.engine with rate := r.toInt }⟩ := by
  cases r <;>
    simp [Fvad.set_sample_rate, fvad_set_sample_rate, SampleRate.toInt,
      SampleRate.toHz, setRateOutcome]

/-- On a frame of valid length, `is_voice_frame` returns the engine's
binary decision and the session with the frame recorded. -/
theorem is_voice_frame_valid (s : Fvad) (frame : List Int)
    (h : (frame.length : Int) ∈ validLengths s.engine.rate) :
    s.is_voice_frame frame =
      .ok (some (engineDecide s.engine frame),
        ⟨s.fvad, { s.engine with history := s.engine.history ++ [frame] }⟩) := by
  cases hd : engineDecide s.engine frame <;>
    simp [Fvad.is_voice_frame, fvad_process, processOutcome, h, hd]

/-- On a frame of invalid length, `is_voice_frame` returns `none` and the
session unchanged. -/
theorem is_voice_frame_invalid (s : Fvad) (frame : List Int)
    (h : (frame.length : Int) ∉ validLengths s.engine.rate) :
    s.is_voice_frame frame = .ok (none, s) := by
  simp [Fvad.is_voice_frame, fvad_process, processOutcome, h]

/-- A frame of zeros is decided non-voice by the modelled engine. -/
theorem engineDecide_replicate_zero (st : EngineState) (n : Nat) :
    engineDecide st (List.replicate n 0) = false := by
  simp [engineDecide, List.any_eq_true]

/-! ## Claims -/

/-- C1: at each supported sample rate, `is_voice_frame` returns the
`InvalidFrameLength` rejection `none` exactly when the frame's length is
not `rate/100`, `rate/50` or `3*rate/100` samples, and on every frame of
valid length it returns a strict binary decision `some b`. -/
theorem C1_frame_length_validation (s : Fvad) (r : SampleRate)
    (frame : List Int) (hr : s.engine.rate = r.toInt) :
    (((frame.length : Int) ∉ validLengths r.toInt) ↔
      s.is_voice_frame frame = .ok (none, s)) ∧
    ((frame.length : Int) ∈ validLengths r.toInt →
      ∃ b s₁, s.is_voice_frame frame = .ok (some b, s₁)) := by
  constructor
  · constructor
    · intro h
      exact is_voice_frame_invalid s frame (hr ▸ h)
    · intro h hmem
      rw [is_voice_frame_valid s frame (hr ▸ hmem)] at h
      simp at h
  · intro hmem
    exact ⟨_, _, is_voice_frame_valid s frame (hr ▸ hmem)⟩

/-- Witness for C1 at a fresh session, rate 8000 Hz and an 80-sample
frame. -/
theorem C1_frame_length_validation_witness :
    ((Fvad.mk 0 EngineState.init).engine.rate = SampleRate.Rate8kHz.toInt) ∧
    ((((List.replicate 80 (0 : Int)).length : Int) ∉
        validLengths SampleRate.Rate8kHz.toInt) ↔
      (Fvad.mk 0 EngineState.init).is_voice_frame (List.replicate 80 0) =
        .ok (none, Fvad.mk 0 EngineState.init)) ∧
    (((List.replicate 80 (0 : Int)).length : Int) ∈
        validLengths SampleRate.Rate8kHz.toInt →
      ∃ b s₁, (Fvad.mk 0 EngineState.init).is_voice_frame
          (List.replicate 80 0) = .ok (some b, s₁)) :=
  ⟨rfl, C1_frame_length_validation (Fvad.mk 0 EngineState.init)
    .Rate8kHz (List.replicate 80 0) rfl⟩

/-- C2: a classification call that rejects a frame for invalid length
returns the session exactly as it was, so classifying a second frame after
the rejected call is the same as classifying it with no rejected call in
between. -/
theorem C2_rejection_preserves_state (s : Fvad) (f g : List Int)
    (h : (f.length : Int) ∉ validLengths s.engine.rate) :
    s.is_voice_frame f = .ok (none, s) ∧
    s.classifyTwice f g = s.is_voice_frame g := by
  have h1 := is_voice_frame_invalid s f h
  exact ⟨h1, by simp [Fvad.classifyTwice, h1]⟩

/-- Witness for C2 at a fresh session, a rejected 81-sample frame and a
subsequent 80-sample frame. -/
theorem C2_rejection_preserves_state_witness :
    (((List.replicate 81 (0 : Int)).length : Int) ∉
      validLengths (Fvad.mk 0 EngineState.init).engine.rate) ∧
    ((Fvad.mk 0 EngineState.init).is_voice_frame (List.replicate 81 0) =
      .ok (none, Fvad.mk 0 EngineState.init) ∧
    (Fvad.mk 0 EngineState.init).classifyTwice (List.replicate 81 0)
        (List.replicate 80 0) =
      (Fvad.mk 0 EngineState.init).is_voice_frame (List.replicate 80 0)) :=
  ⟨by decide, C2_rejection_preserves_state (Fvad.mk 0 EngineState.init)
    (List.replicate 81 0) (List.replicate 80 0) (by decide)⟩

/-- C3 counterexample: ordinal 4 is not representable as a `Mode` (the four
ordinals are exactly 0, 1, 2, 3), and when the engine rejects the
out-of-range ordinal 4 with code -1, the wrapper's return-code match
panics instead of returning an `InvalidMode` error value. -/
theorem C3_counterexample :
    (Mode.Quality.toInt, Mode.LowBitrate.toInt, Mode.Aggressive.toInt,
      Mode.VeryAggressive.toInt) = (0, 1, 2, 3) ∧
    fvad_set_mode EngineState.init 4 = (-1, EngineState.init) ∧
    setModeOutcome 4 (-1) (Fvad.mk 0 EngineState.init) =
      .panicked (.setModeRejected 4) := by
  refine ⟨rfl, by decide, by decide⟩

/-- C3 (amended): mode ordinals outside 0..3 are unrepresentable in the
wrapper's typed interface (the `Mode` ordinals are exactly 0, 1, 2, 3), so
`set_mode` can never submit one; at the engine boundary any out-of-range
ordinal is rejected with code -1 and the configured mode is left
unchanged; and the wrapper maps that rejection code to a panic, not to an
`InvalidMode` error return. -/
theorem C3_mode_whitelist (st : EngineState) (v : Int) (s : Fvad)
    (h : ¬(0 ≤ v ∧ v ≤ 3)) :
    fvad_set_mode st v = (-1, st) ∧
    (Mode.Quality.toInt, Mode.LowBitrate.toInt, Mode.Aggressive.toInt,
      Mode.VeryAggressive.toInt) = (0, 1, 2, 3) ∧
    setModeOutcome v (-1) s = .panicked (.setModeRejected v) := by
  refine ⟨by simp only [fvad_set_mode, if_neg h], rfl, ?_⟩
  norm_num [setModeOutcome]

/-- Witness for C3 (amended) at ordinal 4. -/
theorem C3_mode_whitelist_witness :
    (¬((0 : Int) ≤ 4 ∧ (4 : Int) ≤ 3)) ∧
    (fvad_set_mode EngineState.init 4 = (-1, EngineState.init) ∧
    (Mode.Quality.toInt, Mode.LowBitrate.toInt, Mode.Aggressive.toInt,
      Mode.VeryAggressive.toInt) = (0, 1, 2, 3) ∧
    setModeOutcome 4 (-1) (Fvad.mk 1 EngineState.init) =
      .panicked (.setModeRejected 4)) :=
  ⟨by decide, C3_mode_whitelist EngineState.init 4
    (Fvad.mk 1 EngineState.init) (by decide)⟩

/-- C4 counterexample: -1 is the documented failure code of the configure
operations, yet the wrapper's `set_sample_rate` return-code match panics
on it instead of surfacing an ordinary error return. -/
theorem C4_counterexample :
    setRateOutcome 11025 (-1) (Fvad.mk 0 EngineState.init) =
      .panicked (.setRateRejected 11025) := by decide

/-- C4 (amended): every return code outside the documented set panics —
the configure operations on every code other than their documented 0 and
-1 (code 1 included), the classify operation on every code other than its
documented -1, 0 and 1; the classify operation surfaces its documented
failure code -1 as the ordinary rejection `none`, but the configure
operations panic on their documented failure code -1 as well. -/
theorem C4_engine_code_handling (code : Int) (s : Fvad)
    (h0 : code ≠ 0) (hm : code ≠ -1) :
    setModeOutcome 0 code s = .panicked (.setModeUnexpected code) ∧
    setRateOutcome 0 code s = .panicked (.setRateUnexpected code) ∧
    (code ≠ 1 → processOutcome code = .panicked (.processUnexpected code)) ∧
    processOutcome (-1) = .ok none ∧
    processOutcome 0 = .ok (some false) ∧
    processOutcome 1 = .ok (some true) ∧
    setModeOutcome 0 0 s = .ok s ∧
    setRateOutcome 0 0 s = .ok s ∧
    setModeOutcome 0 1 s = .panicked (.setModeUnexpected 1) ∧
    setRateOutcome 0 1 s = .panicked (.setRateUnexpected 1) ∧
    setModeOutcome 4 (-1) s = .panicked (.setModeRejected 4) ∧
    setRateOutcome 11024 (-1) s = .panicked (.setRateRejected 11024) := by
  refine ⟨?_, ?_, fun h1 => ?_, ?_, ?_, ?_, ?_, ?_, ?_, ?_, ?_, ?_⟩
  · simp only [setModeOutcome, if_neg h0, if_neg hm]
  · simp only [setRateOutcome, if_neg h0, if_neg hm]
  · simp only [processOutcome, if_neg hm, if_neg h0, if_neg h1]
  all_goals norm_num [setModeOutcome, setRateOutcome, processOutcome]

/-- Witness for C4 (amended) at the out-of-contract code 7, with the
classify-guard discharged as well. -/
theorem C4_engine_code_handling_witness :
    ((7 : Int) ≠ 0 ∧ (7 : Int) ≠ -1 ∧ (7 : Int) ≠ 1) ∧
    (setModeOutcome 0 7 (Fvad.mk 0 EngineState.init) =
        .panicked (.setModeUnexpected 7) ∧
    setRateOutcome 0 7 (Fvad.mk 0 EngineState.init) =
        .panicked (.setRateUnexpected 7) ∧
    processOutcome 7 = .panicked (.processUnexpected 7) ∧
    processOutcome (-1) = .ok none ∧
    processOutcome 0 = .ok (some false) ∧
    processOutcome 1 = .ok (some true) ∧
    setModeOutcome 0 0 (Fvad.mk 0 EngineState.init) =
        .ok (Fvad.mk 0 EngineState.init) ∧
    setRateOutcome 0 0 (Fvad.mk 0 EngineState.init) =
        .ok (Fvad.mk 0 EngineState.init) ∧
    setModeOutcome 0 1 (Fvad.mk 0 EngineState.init) =
        .panicked (.setModeUnexpected 1) ∧
    setRateOutcome 0 1 (Fvad.mk 0 EngineState.init) =
        .panicked (.setRateUnexpected 1) ∧
    setModeOutcome 4 (-1) (Fvad.mk 0 EngineState.init) =
        .panicked (.setModeRejected 4) ∧
    setRateOutcome 11024 (-1) (Fvad.mk 0 EngineState.init) =
        .panicked (.setRateRejected 11024)) := by
  have h := C4_engine_code_handling 7 (Fvad.mk 0 EngineState.init)
    (by decide) (by decide)
  exact ⟨⟨by decide, by decide, by decide⟩,
    h.1, h.2.1, h.2.2.1 (by decide), h.2.2.2⟩

/-- C5: the `TryFrom<u16>` whitelist accepts a raw 16-bit rate exactly
when it is 8000, 16000, 32000 or 48000; every other value is reported as
`Err(())` (the spec's `InvalidSampleRate`), `set_sample_rate` is never
reached, and no session is produced, so the configured rate of the given
session stays in effect. -/
theorem C5_sample_rate_whitelist (n : Nat) (s : Fvad) (hn : n < 65536) :
    ((∃ r, SampleRate.tryFrom n = some r) ↔
      (n = 8000 ∨ n = 16000 ∨ n = 32000 ∨ n = 48000)) ∧
    (¬(n = 8000 ∨ n = 16000 ∨ n = 32000 ∨ n = 48000) →
      SampleRate.tryFrom n = none ∧ setSampleRateRaw s n = .error ()) := by
  constructor
  · constructor
    · intro ⟨r, hr⟩
      by_contra hc
      push_neg at hc
      obtain ⟨c1, c2, c3, c4⟩ := hc
      simp [SampleRate.tryFrom, c1, c2, c3, c4] at hr
    · intro h
      rcases h with h | h | h | h <;> subst h
      · exact ⟨.Rate8kHz, by decide⟩
      · exact ⟨.Rate16kHz, by decide⟩
      · exact ⟨.Rate32kHz, by decide⟩
      · exact ⟨.Rate48kHz, by decide⟩
  · intro h
    push_neg at h
    obtain ⟨c1, c2, c3, c4⟩ := h
    have hnone : SampleRate.tryFrom n = none := by
      simp [SampleRate.tryFrom, c1, c2, c3, c4]
    exact ⟨hnone, by simp [setSampleRateRaw, hnone]⟩

/-- Witness for C5 at the near-valid rate 11025. -/
theorem C5_sample_rate_whitelist_witness :
    11025 < 65536 ∧
    (((∃ r, SampleRate.tryFrom 11025 = some r) ↔
      (11025 = 8000 ∨ 11025 = 16000 ∨ 11025 = 32000 ∨ 11025 = 48000)) ∧
    (¬(11025 = 8000 ∨ 11025 = 16000 ∨ 11025 = 32000 ∨ 11025 = 48000) →
      SampleRate.tryFrom 11025 = none ∧
      setSampleRateRaw (Fvad.mk 0 EngineState.init) 11025 = .error ())) :=
  ⟨by decide, C5_sample_rate_whitelist 11025 (Fvad.mk 0 EngineState.init)
    (by decide)⟩

/-- C6: `reset` restores mode Quality and rate 8000 Hz, clears all
adaptive state accumulated by prior classifications, keeps the same engine
handle (no deallocation or reallocation), and is a total function, so it
never fails. -/
theorem C6_reset_restores_defaults (s : Fvad) :
    s.reset = Fvad.mk s.fvad EngineState.init ∧
    s.reset.engine.mode = Mode.Quality.toInt ∧
    s.reset.engine.rate = 8000 ∧
    s.reset.engine.history = [] ∧
    s.reset.fvad = s.fvad :=
  ⟨rfl, rfl, rfl, rfl, rfl⟩

/-- C7: `new` returns `None` exactly when the engine allocation yields a
null handle (resource exhaustion), which is its sole failure mode; on
success it wraps the handle of a default-initialized engine with mode
Quality, rate 8000 Hz and no adaptive state. -/
theorem C7_new_allocation (allocOk : Bool) (p : Nat) :
    (Fvad.new (fvad_new allocOk p) = none ↔ allocOk = false) ∧
    Fvad.new (fvad_new true p) = some (Fvad.mk p EngineState.init) ∧
    EngineState.init.mode = Mode.Quality.toInt ∧
    EngineState.init.rate = 8000 ∧
    EngineState.init.history = [] := by
  cases allocOk <;> simp [Fvad.new, fvad_new, EngineState.init, Mode.toInt]

/-- C8: applying the same `set_mode` or `set_sample_rate` call twice in a
row yields the same session as applying it once, and the second call also
succeeds (no error, no panic). -/
theorem C8_config_idempotent (s s₁ s₂ : Fvad) (m : Mode) (r : SampleRate)
    (hm : s.set_mode m = .ok s₁) (hr : s.set_sample_rate r = .ok s₂) :
    s₁.set_mode m = .ok s₁ ∧ s₂.set_sample_rate r = .ok s₂ := by
  rw [set_mode_eq] at hm
  rw [set_sample_rate_eq] at hr
  simp only [PanicOr.ok.injEq] at hm hr
  subst hm
  subst hr
  exact ⟨set_mode_eq _ m, set_sample_rate_eq _ r⟩

/-- Witness for C8 at mode Aggressive and rate 16000 Hz. -/
theorem C8_config_idempotent_witness :
    ((Fvad.mk 0 EngineState.init).set_mode .Aggressive =
      .ok (Fvad.mk 0 (EngineState.mk 2 8000 [])) ∧
    (Fvad.mk 0 EngineState.init).set_sample_rate .Rate16kHz =
      .ok (Fvad.mk 0 (EngineState.mk 0 16000 []))) ∧
    ((Fvad.mk 0 (EngineState.mk 2 8000 [])).set_mode .Aggressive =
      .ok (Fvad.mk 0 (EngineState.mk 2 8000 [])) ∧
    (Fvad.mk 0 (EngineState.mk 0 16000 [])).set_sample_rate .Rate16kHz =
      .ok (Fvad.mk 0 (EngineState.mk 0 16000 []))) :=
  ⟨⟨by decide, by decide⟩,
    C8_config_idempotent (Fvad.mk 0 EngineState.init)
      (Fvad.mk 0 (EngineState.mk 2 8000 []))
      (Fvad.mk 0 (EngineState.mk 0 16000 []))
      .Aggressive .Rate16kHz (by decide) (by decide)⟩

/-- C9: a session whose engine is in the fresh (created or reset) state,
after configuring any supported sample rate, classifies an all-zero frame
of any valid length at that rate as non-voice (`some false`). -/
theorem C9_silence_nonvoice (s s₁ : Fvad) (r : SampleRate) (len : Nat)
    (_hs : s.engine = EngineState.init)
    (hr : s.set_sample_rate r = .ok s₁)
    (hlen : (len : Int) ∈ validLengths r.toInt) :
    ∃ s₂, s₁.is_voice_frame (List.replicate len 0) = .ok (some false, s₂) := by
  rw [set_sample_rate_eq] at hr
  simp only [PanicOr.ok.injEq] at hr
  subst hr
  have hmem : (((List.replicate len (0 : Int)).length : Int)) ∈
      validLengths (Fvad.mk s.fvad
        { s.engine with rate := r.toInt }).engine.rate := by
    simpa using hlen
  have h := is_voice_frame_valid
    (Fvad.mk s.fvad { s.engine with rate := r.toInt })
    (List.replicate len 0) hmem
  rw [engineDecide_replicate_zero] at h
  exact ⟨_, h⟩

/-- Witness for C9 at rate 16000 Hz with a 320-sample silent frame. -/
theorem C9_silence_nonvoice_witness :
    ((Fvad.mk 0 EngineState.init).engine = EngineState.init ∧
    (Fvad.mk 0 EngineState.init).set_sample_rate .Rate16kHz =
      .ok (Fvad.mk 0 (EngineState.mk 0 16000 [])) ∧
    ((320 : Nat) : Int) ∈ validLengths SampleRate.Rate16kHz.toInt) ∧
    ∃ s₂, (Fvad.mk 0 (EngineState.mk 0 16000 [])).is_voice_frame
        (List.replicate 320 0) = .ok (some false, s₂) :=
  ⟨⟨rfl, by decide, by decide⟩,
    C9_silence_nonvoice (Fvad.mk 0 EngineState.init)
      (Fvad.mk 0 (EngineState.mk 0 16000 [])) .Rate16kHz 320
      rfl (by decide) (by decide)⟩

/-- C10: the numeric encoding round-trips — converting a `SampleRate` to
its rate in Hz and back through the `TryFrom` whitelist yields the same
value; the integer stored in the engine by `set_sample_rate` is exactly
the rate in Hz, and the one stored by `set_mode` is exactly the mode's
ordinal, which lies in 0..3. -/
theorem C10_encoding_roundtrip (r : SampleRate) (m : Mode) (s s₁ s₂ : Fvad)
    (hr : s.set_sample_rate r = .ok s₁) (hm : s.set_mode m = .ok s₂) :
    SampleRate.tryFrom r.toHz = some r ∧
    r.toInt = (r.toHz : Int) ∧
    s₁.engine.rate = r.toInt ∧
    s₂.engine.mode = m.toInt ∧
    (m.toInt = 0 ∨ m.toInt = 1 ∨ m.toInt = 2 ∨ m.toInt = 3) := by
  rw [set_sample_rate_eq] at hr
  rw [set_mode_eq] at hm
  simp only [PanicOr.ok.injEq] at hr hm
  subst hr
  subst hm
  refine ⟨?_, rfl, rfl, rfl, ?_⟩
  · cases r <;> decide
  · cases m <;> simp [Mode.toInt]

/-- Witness for C10 at rate 48000 Hz and mode VeryAggressive. -/
theorem C10_encoding_roundtrip_witness :
    ((Fvad.mk 1 EngineState.init).set_sample_rate .Rate48kHz =
      .ok (Fvad.mk 1 (EngineState.mk 0 48000 [])) ∧
    (Fvad.mk 1 EngineState.init).set_mode .VeryAggressive =
      .ok (Fvad.mk 1 (EngineState.mk 3 8000 []))) ∧
    (SampleRate.tryFrom SampleRate.Rate48kHz.toHz = some .Rate48kHz ∧
    SampleRate.Rate48kHz.toInt = (SampleRate.Rate48kHz.toHz : Int) ∧
    (Fvad.mk 1 (EngineState.mk 0 48000 [])).engine.rate =
      SampleRate.Rate48kHz.toInt ∧
    (Fvad.mk 1 (EngineState.mk 3 8000 [])).engine.mode =
      Mode.VeryAggressive.toInt ∧
    (Mode.VeryAggressive.toInt = 0 ∨ Mode.VeryAggressive.toInt = 1 ∨
      Mode.VeryAggressive.toInt = 2 ∨ Mode.VeryAggressive.toInt = 3)) :=
  ⟨⟨by decide, by decide⟩,
    C10_encoding_roundtrip .Rate48kHz .VeryAggressive
      (Fvad.mk 1 EngineState.init)
      (Fvad.mk 1 (EngineState.mk 0 48000 []))
      (Fvad.mk 1 (EngineState.mk 3 8000 []))
      (by decide) (by decide)⟩
